import Mathlib

/-!
Shallow embedding of the duplex audio-channel arbitration client
(`client5_fc4_c4.py`) and of the chunked audio sender
(`send_audio_to_server` in `client5_f4_button.py` / `client4.py`).

The Python module state of `client5_fc4_c4.py` consists of the booleans
`recording`, `context_active`, `context_paused`, the `threading.Event`
`playback_enabled`, and the global `stream` holding (or not) a started
`sd.InputStream`.  Every code path that stores a stream into the global
also starts it, and every code path that stops one also clears the
global, so the global is modelled by a single `Bool` (stream present and
active).  `start_recording` overwrites the global with a fresh stream
without stopping the previous one; the model counts such displaced,
still-running streams in `leaked`.  Outbound socket emissions are
recorded in order in `outbox`.
-/

/-- Outbound socket.io control messages emitted by the client transitions. -/
inductive OutMsg where
  | stop_server_stream
  | audio_complete_query
  | audio_complete_context
  deriving DecidableEq, Repr

/-- Logical audio channel a captured frame can be routed to. -/
inductive Channel where
  | query
  | context
  deriving DecidableEq, Repr

/-- Module-level mutable state of `client5_fc4_c4.py`. -/
structure ClientState where
  recording : Bool
  context_active : Bool
  context_paused : Bool
  playback_enabled : Bool
  stream : Bool
  outbox : List OutMsg
  leaked : Nat
  deriving Repr

/-- State at module load: all flags false, no stream, nothing emitted. -/
def initState : ClientState :=
  { recording := false, context_active := false, context_paused := false,
    playback_enabled := false, stream := false, outbox := [], leaked := 0 }

/-- Embedding of `start_recording` (client5_fc4_c4.py lines 112-128):
early-return if `recording`; otherwise clear `playback_enabled`, emit
`stop_server_stream`, pause context if `context_active`, install a fresh
started stream (displacing without stopping any stream already in the
global), and set `recording`. -/
def start_recording (s : ClientState) : ClientState :=
  if s.recording then s
  else
    { s with
      playback_enabled := false,
      outbox := s.outbox ++ [OutMsg.stop_server_stream],
      context_paused := if s.context_active then true else s.context_paused,
      stream := true,
      leaked := s.leaked + (if s.stream then 1 else 0),
      recording := true }

/-- Embedding of `stop_recording` (client5_fc4_c4.py lines 130-144):
early-return if not `recording`; otherwise clear `recording`, stop and
drop the stream held in the global (unconditionally, if one is held),
emit `audio_complete_query`, and set `playback_enabled`. -/
def stop_recording (s : ClientState) : ClientState :=
  if !s.recording then s
  else
    { s with
      recording := false,
      stream := false,
      outbox := s.outbox ++ [OutMsg.audio_complete_query],
      playback_enabled := true }

/-- Embedding of `start_context_recording` (client5_fc4_c4.py lines
149-159): early-return if `context_active`; otherwise set
`context_active`, set `context_paused := recording`, and open a stream
only when not recording and no active stream is held. -/
def start_context_recording (s : ClientState) : ClientState :=
  if s.context_active then s
  else
    { s with
      context_active := true,
      context_paused := s.recording,
      stream := if !s.recording && !s.stream then true else s.stream }

/-- Embedding of `stop_context_recording` (client5_fc4_c4.py lines
161-174): early-return if not `context_active`; otherwise emit
`audio_complete_context`, clear `context_active`, and close the held
stream only when not recording.  It does not touch `context_paused`. -/
def stop_context_recording (s : ClientState) : ClientState :=
  if !s.context_active then s
  else
    { s with
      outbox := s.outbox ++ [OutMsg.audio_complete_context],
      context_active := false,
      stream := if !s.recording && s.stream then false else s.stream }

/-- Embedding of `toggle_context` (client5_fc4_c4.py lines 176-180). -/
def toggle_context (s : ClientState) : ClientState :=
  if s.context_active then stop_context_recording s else start_context_recording s

/-- Embedding of `on_server_audio_complete` (client5_fc4_c4.py lines
50-56): if `context_active` and not `recording`, clear `context_paused`. -/
def on_server_audio_complete (s : ClientState) : ClientState :=
  if s.context_active && !s.recording then { s with context_paused := false } else s

/-- Control events driving the arbitration state machine. -/
inductive Event where
  | startQuery
  | stopQuery
  | toggleContext
  | replyComplete
  deriving DecidableEq, Repr

/-- One arbitration transition. -/
def step (s : ClientState) : Event → ClientState
  | Event.startQuery => start_recording s
  | Event.stopQuery => stop_recording s
  | Event.toggleContext => toggle_context s
  | Event.replyComplete => on_server_audio_complete s

/-- Run a sequence of events from a state. -/
def run (s : ClientState) (evs : List Event) : ClientState :=
  evs.foldl step s

/-- Embedding of `audio_callback` (client5_fc4_c4.py lines 97-107): the
router reads `recording`, `context_active`, `context_paused` and emits
the raw frame on the query channel, on the context channel, or not at
all. -/
def audio_callback (s : ClientState) (raw : List Nat) : Option (Channel × List Nat) :=
  if s.recording then some (Channel.query, raw)
  else if s.context_active && !s.context_paused then some (Channel.context, raw)
  else none

/-- Embedding of `on_server_audio_chunk` (client5_fc4_c4.py lines
43-48): a chunk arriving while `playback_enabled` is unset is dropped;
otherwise it is appended to the playback queue. -/
def on_server_audio_chunk (enabled : Bool) (q : List (List Nat)) (data : List Nat) :
    List (List Nat) :=
  if !enabled then q else q ++ [data]

/-- Embedding of one iteration of the `playback_worker` loop
(client5_fc4_c4.py lines 63-75): while `playback_enabled` is unset the
worker sleeps and drains the whole queue, writing nothing to the output
stream; otherwise it pops one frame (if any) and writes it.  Returns the
queue afterwards and the frame written, if any. -/
def playback_worker_step (enabled : Bool) (q : List (List Nat)) :
    List (List Nat) × Option (List Nat) :=
  if !enabled then ([], none)
  else
    match q with
    | [] => (q, none)
    | a :: rest => (rest, some a)

/-- Embedding of the chunking loop
`for i in range(0, len(data), chunk_size): data[i:i+chunk_size]`
of `send_audio_to_server` (client5_f4_button.py lines 187-188,
client4.py lines 88-89): successive slices of at most `cs` items.
`cs = 0` makes Python's `range` raise `ValueError`; the model returns
`[]` there and every theorem assumes `0 < cs`. -/
def chunkStream {α : Type} (cs : Nat) (data : List α) : List (List α) :=
  if h : cs = 0 then []
  else
    match data with
    | [] => []
    | a :: rest => (a :: rest).take cs :: chunkStream cs ((a :: rest).drop cs)
termination_by data.length
decreasing_by
  simp only [List.length_drop, List.length_cons]
  exact Nat.sub_lt (Nat.succ_pos _) (Nat.pos_of_ne_zero h)

/-- Transport messages emitted by `send_audio_to_server`. -/
inductive ServerMsg where
  | audio_chunk (data : List Nat)
  | audio_complete
  deriving DecidableEq, Repr

/-- Chunk size of `send_audio_to_server` (client5_f4_button.py line 29). -/
def CHUNK_SIZE : Nat := 4096

/-- Embedding of `send_audio_to_server` (client5_f4_button.py lines
172-193): drain the audio queue in FIFO order; if nothing was queued,
emit nothing and return; otherwise join the drained byte strings, emit
them as successive `audio_chunk` messages of at most `CHUNK_SIZE`
bytes, then emit one `audio_complete` marker. -/
def send_audio_to_server (queueItems : List (List Nat)) : List ServerMsg :=
  let chunks := queueItems
  if chunks = [] then []
  else
    let data := chunks.flatten
    (chunkStream CHUNK_SIZE data).map ServerMsg.audio_chunk ++ [ServerMsg.audio_complete]

/-- Joining the chunks produced by `chunkStream` recovers the byte
stream, for any positive chunk size. -/
theorem chunkStream_flatten {α : Type} (cs : Nat) (hcs : 0 < cs) (data : List α) :
    (chunkStream cs data).flatten = data := by
  generalize hn : data.length = n
  induction n using Nat.strong_induction_on generalizing data with
  | _ n ih =>
    rw [chunkStream.eq_def, dif_neg (by omega)]
    match data with
    | [] => rfl
    | a :: rest =>
      have hlt : ((a :: rest).drop cs).length < n := by
        rw [List.length_drop, ← hn]
        exact Nat.sub_lt (Nat.succ_pos _) hcs
      simp only [List.flatten_cons]
      rw [ih _ hlt _ rfl, List.take_append_drop]

/-- Every chunk produced by `chunkStream` has at most `cs` items. -/
theorem chunkStream_length_le {α : Type} (cs : Nat) (data : List α) :
    ∀ c ∈ chunkStream cs data, c.length ≤ cs := by
  generalize hn : data.length = n
  induction n using Nat.strong_induction_on generalizing data with
  | _ n ih =>
    rw [chunkStream.eq_def]
    by_cases h : cs = 0
    · simp [h]
    · rw [dif_neg h]
      match data with
      | [] => intro c hc; cases hc
      | a :: rest =>
        intro c hc
        rcases List.mem_cons.mp hc with hc | hc
        · subst hc; exact List.length_take_le cs _
        · have hlt : ((a :: rest).drop cs).length < n := by
            rw [List.length_drop, ← hn]
            exact Nat.sub_lt (Nat.succ_pos _) (Nat.pos_of_ne_zero h)
          exact ih _ hlt _ rfl c hc

/-- The invariant used for the arbitration claims: `recording` never
holds together with `playback_enabled`, and `recording` implies a held
stream. -/
def goodState (s : ClientState) : Prop :=
  (s.recording = true → s.playback_enabled = false)

theorem goodState_step (s : ClientState) (e : Event) (h : goodState s) :
    goodState (step s e) := by
  cases e with
  | startQuery =>
    unfold step start_recording
    by_cases hr : s.recording
    · simpa [hr] using h
    · simp [hr, goodState]
  | stopQuery =>
    unfold step stop_recording
    by_cases hr : s.recording
    · simp [hr, goodState]
    · simpa [hr] using h
  | toggleContext =>
    unfold step toggle_context start_context_recording stop_context_recording
    by_cases hc : s.context_active
    · simpa [hc, goodState] using h
    · simpa [hc, goodState] using h
  | replyComplete =>
    unfold step on_server_audio_complete
    by_cases hc : s.context_active && !s.recording
    · simpa [hc, goodState] using h
    · simpa [hc] using h

theorem goodState_run (s : ClientState) (evs : List Event) (h : goodState s) :
    goodState (run s evs) := by
  induction evs generalizing s with
  | nil => exact h
  | cons e rest ih => exact ih (step s e) (goodState_step s e h)

theorem goodState_init : goodState initState := by
  intro h
  rfl

/-- C1: the spec invariant `context_paused implies context_active` fails
on the code: after `StartQuery`, `ToggleContext` (on), `ToggleContext`
(off) from the initial state, `stop_context_recording` has cleared
`context_active` but left `context_paused` set, because it never touches
`context_paused` while the spec's ToggleContext(off) action says to
clear it. -/
theorem context_paused_invariant_fails :
    (run initState [Event.startQuery, Event.toggleContext, Event.toggleContext]).context_paused
      = true ∧
    (run initState [Event.startQuery, Event.toggleContext, Event.toggleContext]).context_active
      = false := by
  decide

/-- C4: for every sequence of arbitration transitions from the initial
all-false state, `recording` (query_active) and `playback_enabled` never
hold together: a reply cannot be enqueued for playback while a query is
being captured. -/
theorem query_excludes_playback (evs : List Event) :
    ((run initState evs).recording && (run initState evs).playback_enabled) = false := by
  have h := goodState_run initState evs goodState_init
  cases hr : (run initState evs).recording with
  | false => simp
  | true => simp [h hr]

/-- C3 counterexample: from the (unreachable) prior state with
`recording = true` and `playback_enabled = true`, `start_recording`
returns immediately and leaves `playback_enabled = true`, contradicting
the claim that `playback_enabled` is false afterwards for every prior
state. -/
theorem start_recording_stale_playback :
    (start_recording
      { recording := true, context_active := false, context_paused := false,
        playback_enabled := true, stream := true, outbox := [], leaked := 0 }).playback_enabled
      = true := by
  decide

/-- C3 (amended): after `start_recording` from any reachable prior state
(a run of events from the initial state), `playback_enabled` is false;
and from any prior state with `recording` false, the transition emits
`stop_server_stream` (abrupt-stop request for any remote reply stream),
sets `context_paused` when `context_active`, arms the capture stream,
and sets `recording`. -/
theorem start_recording_spec (evs : List Event) (s : ClientState)
    (h : s.recording = false) :
    (start_recording (run initState evs)).playback_enabled = false ∧
    (start_recording s).outbox = s.outbox ++ [OutMsg.stop_server_stream] ∧
    (s.context_active = true → (start_recording s).context_paused = true) ∧
    (start_recording s).stream = true ∧
    (start_recording s).recording = true := by
  refine ⟨?_, ?_, ?_, ?_, ?_⟩
  · have hg := goodState_run initState evs goodState_init
    unfold start_recording
    cases hr : (run initState evs).recording with
    | false => simp [hr]
    | true => simpa [hr] using hg hr
  · simp [start_recording, h]
  · intro hc; simp [start_recording, h, hc]
  · simp [start_recording, h]
  · simp [start_recording, h]

theorem start_recording_spec_witness :
    (start_recording (run initState [Event.toggleContext])).playback_enabled = false ∧
    (start_recording
      { recording := false, context_active := true, context_paused := false,
        playback_enabled := false, stream := false, outbox := [], leaked := 0 }).context_paused
      = true :=
  ⟨(start_recording_spec [Event.toggleContext]
      { recording := false, context_active := true, context_paused := false,
        playback_enabled := false, stream := false, outbox := [], leaked := 0 } rfl).1,
   (start_recording_spec [Event.toggleContext]
      { recording := false, context_active := true, context_paused := false,
        playback_enabled := false, stream := false, outbox := [], leaked := 0 } rfl).2.2.1 rfl⟩

/-- C2 counterexample: in the reachable state after `ToggleContext` (on)
then `StartQuery` — where `context_active` is true — `stop_recording`
leaves `context_paused` true (no resume) and closes the stream handle it
holds (disarms although the context channel still needs capture),
contradicting the claim. -/
theorem stop_recording_claim_fails :
    (run initState [Event.toggleContext, Event.startQuery]).context_active = true ∧
    (stop_recording (run initState [Event.toggleContext, Event.startQuery])).context_paused
      = true ∧
    (stop_recording (run initState [Event.toggleContext, Event.startQuery])).stream
      = false := by
  decide

/-- C2 (amended): from any state with `recording` true, `stop_recording`
clears `recording`, emits the `audio_complete_query` marker, sets
`playback_enabled`, unconditionally stops and drops the stream handle it
holds (even when `context_active` is true), and leaves `context_paused`
unchanged: context resumes (`context_paused := false`) only when the
server's reply-complete signal is handled afterwards. -/
theorem stop_recording_spec (s : ClientState) (h : s.recording = true) :
    (stop_recording s).recording = false ∧
    (stop_recording s).outbox = s.outbox ++ [OutMsg.audio_complete_query] ∧
    (stop_recording s).playback_enabled = true ∧
    (stop_recording s).stream = false ∧
    (stop_recording s).context_paused = s.context_paused ∧
    (s.context_active = true →
      (on_server_audio_complete (stop_recording s)).context_paused = false) := by
  refine ⟨?_, ?_, ?_, ?_, ?_, ?_⟩ <;>
    simp [stop_recording, on_server_audio_complete, h] <;>
    intro hc <;> simp [hc]

theorem stop_recording_spec_witness :
    (stop_recording
      { recording := true, context_active := true, context_paused := true,
        playback_enabled := false, stream := true, outbox := [], leaked := 1 }).playback_enabled
      = true ∧
    (on_server_audio_complete (stop_recording
      { recording := true, context_active := true, context_paused := true,
        playback_enabled := false, stream := true, outbox := [], leaked := 1 })).context_paused
      = false :=
  ⟨(stop_recording_spec
      { recording := true, context_active := true, context_paused := true,
        playback_enabled := false, stream := true, outbox := [], leaked := 1 } rfl).2.2.1,
   (stop_recording_spec
      { recording := true, context_active := true, context_paused := true,
        playback_enabled := false, stream := true, outbox := [], leaked := 1 } rfl).2.2.2.2.2 rfl⟩

/-- C5: `audio_callback` routes a captured frame to the query channel
exactly when `recording` is true; otherwise to the context channel
exactly when `context_active` is true and `context_paused` is false;
otherwise it discards the frame.  In particular a frame captured while
`recording` is never emitted on the context channel, and a frame
captured while not `recording` is never emitted on the query channel. -/
theorem audio_callback_routes (s : ClientState) (raw : List Nat) :
    (s.recording = true → audio_callback s raw = some (Channel.query, raw)) ∧
    (s.recording = false → s.context_active = true → s.context_paused = false →
      audio_callback s raw = some (Channel.context, raw)) ∧
    (s.recording = false → (s.context_active = false ∨ s.context_paused = true) →
      audio_callback s raw = none) ∧
    (∀ d, s.recording = true → audio_callback s raw ≠ some (Channel.context, d)) ∧
    (∀ d, s.recording = false → audio_callback s raw ≠ some (Channel.query, d)) := by
  obtain ⟨r, ca, cp, pe, st, ob, lk⟩ := s
  cases r <;> cases ca <;> cases cp <;> simp [audio_callback]

theorem audio_callback_routes_witness :
    audio_callback
      { recording := true, context_active := true, context_paused := true,
        playback_enabled := false, stream := true, outbox := [], leaked := 0 } [7]
      = some (Channel.query, [7]) ∧
    audio_callback
      { recording := false, context_active := true, context_paused := false,
        playback_enabled := false, stream := true, outbox := [], leaked := 0 } [7]
      = some (Channel.context, [7]) ∧
    audio_callback
      { recording := false, context_active := true, context_paused := true,
        playback_enabled := false, stream := true, outbox := [], leaked := 0 } [7]
      = none :=
  ⟨(audio_callback_routes
      { recording := true, context_active := true, context_paused := true,
        playback_enabled := false, stream := true, outbox := [], leaked := 0 } [7]).1 rfl,
   (audio_callback_routes
      { recording := false, context_active := true, context_paused := false,
        playback_enabled := false, stream := true, outbox := [], leaked := 0 } [7]).2.1
      rfl rfl rfl,
   (audio_callback_routes
      { recording := false, context_active := true, context_paused := true,
        playback_enabled := false, stream := true, outbox := [], leaked := 0 } [7]).2.2.1
      rfl (Or.inr rfl)⟩

/-- C6: a reply chunk arriving while `playback_enabled` is unset is
silently dropped (queue unchanged, so never enqueued and never written);
one iteration of the playback worker while `playback_enabled` is unset
drains the whole queue and writes nothing to the device; consequently,
when playback is re-enabled right after such an iteration the worker
finds an empty queue, so no stale frame is played. -/
theorem disabled_playback_drops_chunks (q : List (List Nat)) (d : List Nat) :
    on_server_audio_chunk false q d = q ∧
    playback_worker_step false q = ([], none) ∧
    playback_worker_step true (playback_worker_step false q).1 = ([], none) := by
  refine ⟨rfl, rfl, rfl⟩

/-- C7: chunking a concatenated stream of frames into successive chunks
of at most `cs` items (`chunkStream`, the loop of
`send_audio_to_server`) and concatenating the chunks in arrival order
recovers exactly the original byte stream — the original frames in their
original order — for every positive chunk size, including chunk sizes
larger than the total byte length. -/
theorem chunker_roundtrip (frames : List (List Nat)) (cs : Nat) (hcs : 0 < cs) :
    (chunkStream cs frames.flatten).flatten = frames.flatten :=
  chunkStream_flatten cs hcs frames.flatten

theorem chunker_roundtrip_witness :
    0 < 100 ∧
    (chunkStream 100 ([[1, 2, 3], [4, 5]] : List (List Nat)).flatten).flatten
      = ([[1, 2, 3], [4, 5]] : List (List Nat)).flatten :=
  ⟨by decide, chunker_roundtrip [[1, 2, 3], [4, 5]] 100 (by decide)⟩

/-- C8: an event whose precondition fails is a benign no-op leaving the
entire state unchanged: `stop_recording` while not `recording`, and
re-entrant `start_recording` while already `recording`, both return the
state exactly as it was (and, being total functions of the state, raise
nothing). -/
theorem precondition_noops (s : ClientState) :
    (s.recording = false → stop_recording s = s) ∧
    (s.recording = true → start_recording s = s) := by
  constructor
  · intro h; simp [stop_recording, h]
  · intro h; simp [start_recording, h]

theorem precondition_noops_witness :
    stop_recording initState = initState ∧
    start_recording
      { recording := true, context_active := false, context_paused := false,
        playback_enabled := false, stream := true, outbox := [], leaked := 0 }
      = { recording := true, context_active := false, context_paused := false,
          playback_enabled := false, stream := true, outbox := [], leaked := 0 } :=
  ⟨(precondition_noops initState).1 rfl,
   (precondition_noops
      { recording := true, context_active := false, context_paused := false,
        playback_enabled := false, stream := true, outbox := [], leaked := 0 }).2 rfl⟩

/-- C10: `send_audio_to_server` emits nothing at all on an empty queue —
no `audio_chunk` and no `audio_complete` marker — and on a non-empty
queue emits the queued bytes as successive chunks of at most
`CHUNK_SIZE` bytes followed by exactly one `audio_complete` marker. -/
theorem send_audio_to_server_spec (items : List (List Nat)) (h : items ≠ []) :
    send_audio_to_server [] = [] ∧
    ∃ cks : List (List Nat),
      send_audio_to_server items
        = cks.map ServerMsg.audio_chunk ++ [ServerMsg.audio_complete] ∧
      cks.flatten = items.flatten ∧
      (∀ c ∈ cks, c.length ≤ CHUNK_SIZE) ∧
      (send_audio_to_server items).count ServerMsg.audio_complete = 1 := by
  refine ⟨rfl, chunkStream CHUNK_SIZE items.flatten, ?_, ?_, ?_, ?_⟩
  · simp [send_audio_to_server, h]
  · exact chunkStream_flatten CHUNK_SIZE (by decide) items.flatten
  · exact chunkStream_length_le CHUNK_SIZE items.flatten
  · have h0 : (List.map ServerMsg.audio_chunk
        (chunkStream CHUNK_SIZE items.flatten)).count ServerMsg.audio_complete = 0 := by
      rw [List.count_eq_zero]
      intro hmem
      obtain ⟨c, _, hc⟩ := List.mem_map.mp hmem
      cases hc
    simp [send_audio_to_server, if_neg h, List.count_append, h0]

theorem send_audio_to_server_spec_witness :
    (([[1, 2], [3]] : List (List Nat)) ≠ []) ∧
    (send_audio_to_server [] = [] ∧
      ∃ cks : List (List Nat),
        send_audio_to_server [[1, 2], [3]]
          = cks.map ServerMsg.audio_chunk ++ [ServerMsg.audio_complete] ∧
        cks.flatten = ([[1, 2], [3]] : List (List Nat)).flatten ∧
        (∀ c ∈ cks, c.length ≤ CHUNK_SIZE) ∧
        (send_audio_to_server [[1, 2], [3]]).count ServerMsg.audio_complete = 1) :=
  ⟨by decide, send_audio_to_server_spec [[1, 2], [3]] (by decide)⟩
